import Mathlib

/-!
Shallow embedding of the rate-limiting and billing subsystem of the
mornGPT commercial API (src/api/rate_limiter.py and src/api/billing.py).

Python wall-clock instants (`datetime.now()`) are passed explicitly; the
sqlite database and the in-process caches are explicit state records.
Python exceptions (`HTTPException`, `ValueError`, swallowed sqlite errors)
are modelled with `Except` or, where the source catches and logs them,
with the rolled-back state the source leaves behind.
-/

namespace MornGPT

/-- A wall-clock instant, keeping the `datetime` fields the limiter
touches (`day` counts whole days from an arbitrary epoch). -/
structure DateTime where
  day : Nat
  hour : Nat
  minute : Nat
  second : Nat
  microsecond : Nat
deriving DecidableEq

/-- `datetime.timestamp()` / `time.time()`, in microseconds. -/
def DateTime.toMicros (t : DateTime) : Nat :=
  (((t.day * 24 + t.hour) * 60 + t.minute) * 60 + t.second) * 1000000 + t.microsecond

/-- Rebuild a `DateTime` from a microsecond count (used for `timedelta`
addition in `_get_reset_time`). -/
def DateTime.ofMicros (n : Nat) : DateTime :=
  { day := n / 86400000000
    hour := n / 3600000000 % 24
    minute := n / 60000000 % 60
    second := n / 1000000 % 60
    microsecond := n % 1000000 }

/-- A dollar amount in exact thousandths of a dollar: every price and fee
in the source is a multiple of 0.001, so the decimal arithmetic of
billing.py is embedded exactly at this scale. -/
abbrev Milli := Nat

/-- The Python exceptions the subsystem can raise. -/
inductive PyError where
  | httpException (statusCode : Nat) (detail : String)
  | valueError (message : String)
deriving DecidableEq

/-- Python `dict` lookup: `d[k]` as an `Option` (`none` models `KeyError`
or a failed `in` test). -/
def dictGet {α : Type} (k : String) : List (String × α) → Option α
  | [] => none
  | (k1, v) :: rest => if k == k1 then some v else dictGet k rest

/-- Python `d.get(k, default)`. -/
def dictGetD {α : Type} (k : String) (d : List (String × α)) (dflt : α) : α :=
  (dictGet k d).getD dflt

/-- `RATE_LIMITS` from src/api/rate_limiter.py, with each plan's limit
table in Python dict insertion order. -/
def RATE_LIMITS : List (String × List (String × Nat)) :=
  [("free", [("requests_per_minute", 10), ("requests_per_hour", 100),
             ("requests_per_day", 1000)]),
   ("starter", [("requests_per_minute", 60), ("requests_per_hour", 1000),
                ("requests_per_day", 10000)]),
   ("professional", [("requests_per_minute", 300), ("requests_per_hour", 10000),
                     ("requests_per_day", 100000)]),
   ("enterprise", [("requests_per_minute", 1000), ("requests_per_hour", 50000),
                   ("requests_per_day", 1000000)])]

/-- `now.replace(second=0, microsecond=0)`. -/
def DateTime.truncToMinute (now : DateTime) : DateTime :=
  { now with second := 0, microsecond := 0 }

/-- `now.replace(minute=0, second=0, microsecond=0)`. -/
def DateTime.truncToHour (now : DateTime) : DateTime :=
  { now with minute := 0, second := 0, microsecond := 0 }

/-- `now.replace(hour=0, minute=0, second=0, microsecond=0)`. -/
def DateTime.truncToDay (now : DateTime) : DateTime :=
  { now with hour := 0, minute := 0, second := 0, microsecond := 0 }

/-- `RateLimiter._get_window_start`: truncate `now` to the window
resolution, raising `ValueError` on an unknown window type. -/
def getWindowStart (windowType : String) (now : DateTime) : Except PyError DateTime :=
  if windowType == "minute" then
    .ok now.truncToMinute
  else if windowType == "hour" then
    .ok now.truncToHour
  else if windowType == "day" then
    .ok now.truncToDay
  else
    .error (.valueError ("Invalid window type: " ++ windowType))

/-- `RateLimiter._get_reset_time`: keyed on the `requests_per_*` spellings;
any other window type falls through to `now`. -/
def getResetTime (windowType : String) (now : DateTime) : DateTime :=
  if windowType == "requests_per_minute" then
    DateTime.ofMicros (now.truncToMinute.toMicros + 60000000)
  else if windowType == "requests_per_hour" then
    DateTime.ofMicros (now.truncToHour.toMicros + 3600000000)
  else if windowType == "requests_per_day" then
    DateTime.ofMicros (now.truncToDay.toMicros + 86400000000)
  else
    now

/-- Lookup in a `defaultdict(int)` keyed by `(user_id, window_type)`. -/
def assocGet (m : List ((Nat × String) × Nat)) (k : Nat × String) : Nat :=
  match m with
  | [] => 0
  | (k1, v) :: rest => if k1 == k then v else assocGet rest k

/-- Assignment in a `defaultdict(int)` keyed by `(user_id, window_type)`. -/
def assocSet (m : List ((Nat × String) × Nat)) (k : Nat × String) (v : Nat) :
    List ((Nat × String) × Nat) :=
  (k, v) :: m.filter (fun p => p.1 != k)

/-- The `RateLimiter` instance state: `self.cache` and
`self.cache_timestamps` (both `defaultdict`s, absent key = 0). -/
structure RateLimiterCache where
  cache : List ((Nat × String) × Nat)
  cacheTimestamps : List ((Nat × String) × Nat)
deriving DecidableEq

/-- One row of the sqlite `rate_limits` table:
`(user_id, window_type, window_start, request_count)`. -/
structure RateLimitRow where
  userId : Nat
  windowType : String
  windowStart : DateTime
  requestCount : Nat
deriving DecidableEq

/-- One row of the sqlite `usage_stats` table. -/
structure UsageEvent where
  userId : Nat
  moduleName : String
  callsCount : Nat
  costPerCall : Milli
  totalCost : Milli
  timestamp : Nat
deriving DecidableEq

/-- One row of the sqlite `billing_cycles` table (fields `calculate_bill`
reads, in `SELECT *` column order). -/
structure BillingCycleRow where
  id : Nat
  userId : Nat
  cycleStart : Nat
  cycleEnd : Nat
  totalCalls : Nat
  totalCost : Milli
  plan : String
  status : String
deriving DecidableEq

/-- One row of the sqlite `payments` table. -/
structure PaymentRow where
  id : Nat
  userId : Nat
  amount : Milli
  paymentMethod : String
  status : String
deriving DecidableEq

/-- The shared sqlite file `mornGPT_api.db`: the `users` table carries
`(id, plan)`. -/
structure Database where
  users : List (Nat × String)
  rateLimits : List RateLimitRow
  usageStats : List UsageEvent
  billingCycles : List BillingCycleRow
  payments : List PaymentRow
deriving DecidableEq

/-- `RateLimiter._cleanup_cache`: zero the cached count when its refresh
stamp predates the current window's start. -/
def cleanupCache (userId : Nat) (windowType : String) (now : DateTime)
    (c : RateLimiterCache) : Except PyError RateLimiterCache :=
  match getWindowStart windowType now with
  | .error e => .error e
  | .ok windowStart =>
    if assocGet c.cacheTimestamps (userId, windowType) < windowStart.toMicros then
      .ok { cache := assocSet c.cache (userId, windowType) 0
            cacheTimestamps := assocSet c.cacheTimestamps (userId, windowType) now.toMicros }
    else
      .ok c

/-- `RateLimiter._get_database_count`: `SELECT SUM(request_count)` over the
rows matching `(user_id, window_type, window_start)` (`NULL` sum = 0). -/
def getDatabaseCount (userId : Nat) (windowType : String) (now : DateTime)
    (db : Database) : Except PyError Nat :=
  match getWindowStart windowType now with
  | .error e => .error e
  | .ok windowStart =>
    .ok ((db.rateLimits.filter (fun r =>
      r.userId == userId && r.windowType == windowType
        && r.windowStart == windowStart)).map (fun r => r.requestCount)).sum

/-- Equality of `Except` results is decidable componentwise. -/
instance exceptDecEq {e a : Type} [DecidableEq e] [DecidableEq a] :
    DecidableEq (Except e a) := fun x y =>
  match x, y with
  | .error e1, .error e2 =>
    if h : e1 = e2 then .isTrue (by rw [h]) else
      .isFalse (fun hc => by cases hc; exact h rfl)
  | .ok a1, .ok a2 =>
    if h : a1 = a2 then .isTrue (by rw [h]) else
      .isFalse (fun hc => by cases hc; exact h rfl)
  | .error _, .ok _ => .isFalse (fun hc => by cases hc)
  | .ok _, .error _ => .isFalse (fun hc => by cases hc)

/-- The per-window usage detail `check_rate_limit` accumulates in
`current_usage` (`remaining = max(0, limit - current)`). -/
structure WindowUsage where
  windowType : String
  current : Nat
  limitValue : Nat
  remaining : Nat
deriving DecidableEq

/-- The `(bool, dict)` result of `check_rate_limit`. -/
inductive CheckOutcome where
  | allowed (usage : List WindowUsage)
  | denied (windowType : String) (limitValue : Nat) (current : Nat) (resetTime : DateTime)
deriving DecidableEq

/-- The `for window_type, limit in limits.items()` loop body of
`RateLimiter.check_rate_limit`, threading the cache and accumulating
`current_usage`; the database is read-only here. -/
def checkWindows (userId : Nat) (now : DateTime) (db : Database) :
    List (String × Nat) → RateLimiterCache → List WindowUsage →
    Except PyError (RateLimiterCache × CheckOutcome)
  | [], c, acc => .ok (c, .allowed acc.reverse)
  | (windowType, limitValue) :: rest, c, acc =>
    match cleanupCache userId windowType now c with
    | .error e => .error e
    | .ok c1 =>
      let cached := assocGet c1.cache (userId, windowType)
      let fetched : Except PyError (Nat × RateLimiterCache) :=
        if cached == 0 then
          match getDatabaseCount userId windowType now db with
          | .error e => .error e
          | .ok n =>
            .ok (n, { cache := assocSet c1.cache (userId, windowType) n
                      cacheTimestamps :=
                        assocSet c1.cacheTimestamps (userId, windowType) now.toMicros })
        else
          .ok (cached, c1)
      match fetched with
      | .error e => .error e
      | .ok (currentCount, c2) =>
        let acc2 := ⟨windowType, currentCount, limitValue, limitValue - currentCount⟩ :: acc
        if limitValue ≤ currentCount then
          .ok (c2, .denied windowType limitValue currentCount (getResetTime windowType now))
        else
          checkWindows userId now db rest c2 acc2

/-- `RateLimiter.check_rate_limit`: reject unknown plans with HTTP 400,
then walk the plan's limit table in insertion order. -/
def checkRateLimit (userId : Nat) (plan : String) (now : DateTime)
    (c : RateLimiterCache) (db : Database) :
    Except PyError (RateLimiterCache × CheckOutcome) :=
  match dictGet plan RATE_LIMITS with
  | none => .error (.httpException 400 "Invalid plan")
  | some limits => checkWindows userId now db limits c []

/-- `RateLimiter._update_database_usage`: UPDATE the matching rows, INSERT
when none matched; every exception (including the `ValueError` from
`_get_window_start`) is caught, logged and rolled back, leaving the table
unchanged. -/
def updateDatabaseUsage (userId : Nat) (windowType : String) (count : Nat)
    (now : DateTime) (rows : List RateLimitRow) : List RateLimitRow :=
  match getWindowStart windowType now with
  | .error _ => rows
  | .ok windowStart =>
    if rows.any (fun r => r.userId == userId && r.windowType == windowType
        && r.windowStart == windowStart) then
      rows.map (fun r =>
        if r.userId == userId && r.windowType == windowType
            && r.windowStart == windowStart then
          { r with requestCount := r.requestCount + count }
        else r)
    else
      rows ++ [⟨userId, windowType, windowStart, count⟩]

/-- `RateLimiter.increment_usage`: bump the cache, stamp the refresh time,
then write through to the database. -/
def incrementUsage (userId : Nat) (windowType : String) (count : Nat)
    (now : DateTime) (c : RateLimiterCache) (db : Database) :
    RateLimiterCache × Database :=
  (⟨assocSet c.cache (userId, windowType)
      (assocGet c.cache (userId, windowType) + count),
    assocSet c.cacheTimestamps (userId, windowType) now.toMicros⟩,
   { db with rateLimits := updateDatabaseUsage userId windowType count now db.rateLimits })

/-- `RateLimiter.reset_user_limits`: drop the user's `self.cache` entries
(`self.cache_timestamps` is left alone) and DELETE the user's rows from
`rate_limits`; no other table is touched. -/
def resetUserLimits (userId : Nat) (c : RateLimiterCache) (db : Database) :
    RateLimiterCache × Database :=
  ({ c with cache := c.cache.filter (fun p => p.1.1 != userId) },
   { db with rateLimits := db.rateLimits.filter (fun r => r.userId != userId) })

/-- One entry of `PRICING_TIERS` in src/api/billing.py. -/
structure PricingTier where
  monthlyCalls : Nat
  pricePerCall : Milli
  monthlyFee : Milli
deriving DecidableEq

/-- `PRICING_TIERS` from src/api/billing.py. -/
def PRICING_TIERS : List (String × PricingTier) :=
  [("free", ⟨100, 0, 0⟩),
   ("starter", ⟨1000, 10, 9990⟩),
   ("professional", ⟨10000, 5, 49990⟩),
   ("enterprise", ⟨100000, 2, 199990⟩)]

/-- `MODULE_PRICING` from src/api/billing.py. -/
def MODULE_PRICING : List (String × Milli) :=
  [("growth_advisory", 20), ("interview_job", 15), ("coder", 25),
   ("content_detection", 30), ("medical_advice", 40), ("multi_gpt", 35),
   ("housing", 20), ("person_matching", 25), ("teacher_coach", 20),
   ("traveling", 20), ("product_search", 15), ("clothing", 20),
   ("restaurant_food", 20), ("content_generation", 50),
   ("anti_ai_protection", 100)]

/-- `BillingManager.track_usage`: look up the user's plan, price the call
as `plan.price_per_call + MODULE_PRICING.get(module, 0.01)` and INSERT one
`usage_stats` row. Every exception (missing user, unknown plan, or a
failed INSERT, modelled by `writeSucceeds = false`) is caught, logged and
rolled back, and the function still returns normally. -/
def trackUsage (userId : Nat) (moduleName : String) (calls : Nat) (now : Nat)
    (writeSucceeds : Bool) (db : Database) : Database :=
  match (db.users.find? (fun u => u.1 == userId)).map (fun u => u.2) with
  | none => db
  | some plan =>
    match dictGet plan PRICING_TIERS with
    | none => db
    | some tier =>
      let totalCostPerCall := tier.pricePerCall + dictGetD moduleName MODULE_PRICING 10
      if writeSucceeds then
        { db with usageStats := db.usageStats ++
            [⟨userId, moduleName, calls, totalCostPerCall,
              totalCostPerCall * calls, now⟩] }
      else
        db

/-- The dict `BillingManager.calculate_bill` returns. -/
structure Bill where
  billingCycleId : Nat
  userId : Nat
  plan : String
  monthlyFee : Milli
  usageCost : Milli
  totalCalls : Nat
  totalBill : Milli
  cycleStart : Nat
  cycleEnd : Nat
deriving DecidableEq

/-- The `usage_stats` rows of one user whose `timestamp` lies BETWEEN
`cycleStart` AND `cycleEnd` (both ends inclusive). -/
def cycleEvents (userId : Nat) (cycleStart cycleEnd : Nat) (db : Database) :
    List UsageEvent :=
  db.usageStats.filter (fun e => e.userId == userId
    && decide (cycleStart ≤ e.timestamp) && decide (e.timestamp ≤ cycleEnd))

/-- `BillingManager.calculate_bill`: 404 when no cycle row matches
`(id, user_id)`; otherwise `total_bill = monthly_fee + SUM(total_cost)`
over the cycle's usage rows (an unknown cycle plan would be an uncaught
`KeyError`, modelled as an error value). -/
def calculateBill (userId : Nat) (cycleId : Nat) (db : Database) :
    Except PyError Bill :=
  match db.billingCycles.find? (fun cy => cy.id == cycleId && cy.userId == userId) with
  | none => .error (.httpException 404 "Billing cycle not found")
  | some cycle =>
    match dictGet cycle.plan PRICING_TIERS with
    | none => .error (.valueError ("KeyError: " ++ cycle.plan))
    | some tier =>
      let rows := cycleEvents userId cycle.cycleStart cycle.cycleEnd db
      let totalCalls := (rows.map (fun e => e.callsCount)).sum
      let totalCost := (rows.map (fun e => e.totalCost)).sum
      .ok ⟨cycleId, userId, cycle.plan, tier.monthlyFee, totalCost, totalCalls,
           tier.monthlyFee + totalCost, cycle.cycleStart, cycle.cycleEnd⟩

/-- `BillingManager.upgrade_plan`: HTTP 400 before any database access
when the plan is unknown; otherwise UPDATE the user's row and report
whether a row matched. -/
def upgradePlan (userId : Nat) (newPlan : String) (db : Database) :
    Database × Except PyError Bool :=
  if (dictGet newPlan PRICING_TIERS).isNone then
    (db, .error (.httpException 400 "Invalid plan"))
  else
    ({ db with users := db.users.map (fun u =>
        if u.1 == userId then (u.1, newPlan) else u) },
     .ok (db.users.any (fun u => u.1 == userId)))

/-! Helper lemmas shared by the claim theorems. -/

/-- Truncating to the minute twice equals truncating once. -/
theorem DateTime.truncToMinute_idem (t : DateTime) :
    t.truncToMinute.truncToMinute = t.truncToMinute := rfl

/-- Truncating to the hour twice equals truncating once. -/
theorem DateTime.truncToHour_idem (t : DateTime) :
    t.truncToHour.truncToHour = t.truncToHour := rfl

/-- Truncating to the day twice equals truncating once. -/
theorem DateTime.truncToDay_idem (t : DateTime) :
    t.truncToDay.truncToDay = t.truncToDay := rfl

/-- Sums of pointwise-equal maps agree. -/
theorem map_sum_congr {α : Type} (l : List α) (f g : α → Nat)
    (h : ∀ a ∈ l, f a = g a) : (l.map f).sum = (l.map g).sum := by
  induction l with
  | nil => rfl
  | cons a t ih =>
    simp only [List.map_cons, List.sum_cons, h a (List.mem_cons_self a t),
      ih (fun b hb => h b (List.mem_cons_of_mem a hb))]

/-- A plan found in `RATE_LIMITS` is one of the four catalog tiers. -/
theorem ratelimits_plans (plan : String)
    (h : (dictGet plan RATE_LIMITS).isSome = true) :
    plan = "free" ∨ plan = "starter" ∨ plan = "professional" ∨ plan = "enterprise" := by
  by_cases h1 : plan = "free"
  · exact Or.inl h1
  by_cases h2 : plan = "starter"
  · exact Or.inr (Or.inl h2)
  by_cases h3 : plan = "professional"
  · exact Or.inr (Or.inr (Or.inl h3))
  by_cases h4 : plan = "enterprise"
  · exact Or.inr (Or.inr (Or.inr h4))
  exfalso
  simp [dictGet, RATE_LIMITS, h1, h2, h3, h4] at h

/-- C7: the window-start computation is a pure, deterministic function of
`(windowType, now)`: minute truncation zeroes seconds and microseconds,
hour truncation zeroes minutes, seconds and microseconds, day truncation
zeroes hours, minutes, seconds and microseconds; evaluating it twice on
the same arguments gives the same instant, and re-applying it to its own
output is a fixed point. -/
theorem getWindowStart_deterministic_truncation (now : DateTime) :
    getWindowStart "minute" now = .ok ⟨now.day, now.hour, now.minute, 0, 0⟩ ∧
    getWindowStart "hour" now = .ok ⟨now.day, now.hour, 0, 0, 0⟩ ∧
    getWindowStart "day" now = .ok ⟨now.day, 0, 0, 0, 0⟩ ∧
    (∀ windowType : String,
      getWindowStart windowType now = getWindowStart windowType now) ∧
    (∀ windowType w, getWindowStart windowType now = .ok w →
      getWindowStart windowType w = .ok w) := by
  refine ⟨rfl, rfl, rfl, fun _ => rfl, ?_⟩
  intro windowType w h
  by_cases h1 : windowType == "minute"
  · simp [getWindowStart, h1] at h ⊢
    subst h
    exact DateTime.truncToMinute_idem now
  by_cases h2 : windowType == "hour"
  · simp [getWindowStart, h1, h2] at h ⊢
    subst h
    exact DateTime.truncToHour_idem now
  by_cases h3 : windowType == "day"
  · simp [getWindowStart, h1, h2, h3] at h ⊢
    subst h
    exact DateTime.truncToDay_idem now
  · simp [getWindowStart, h1, h2, h3] at h

/-- Witness for C7 at a concrete instant. -/
theorem getWindowStart_deterministic_truncation_w :
    getWindowStart "hour" ⟨19000, 7, 31, 12, 99⟩ = .ok ⟨19000, 7, 0, 0, 0⟩ ∧
    getWindowStart "hour" ⟨19000, 7, 0, 0, 0⟩ = .ok ⟨19000, 7, 0, 0, 0⟩ :=
  ⟨(getWindowStart_deterministic_truncation ⟨19000, 7, 31, 12, 99⟩).2.1,
   (getWindowStart_deterministic_truncation ⟨19000, 7, 31, 12, 99⟩).2.2.2.2 "hour"
     ⟨19000, 7, 0, 0, 0⟩
     (getWindowStart_deterministic_truncation ⟨19000, 7, 31, 12, 99⟩).2.1⟩

/-- C8: for every user id and every plan present in `RATE_LIMITS`,
`check_rate_limit` raises `ValueError` before producing any allow/deny
decision: it iterates the plan's limit-table keys, whose first key
`requests_per_minute` is passed to `_get_window_start`, which accepts only
`minute`, `hour` or `day`. -/
theorem checkRateLimit_catalog_plan_valueError (userId : Nat) (plan : String)
    (now : DateTime) (c : RateLimiterCache) (db : Database)
    (h : (dictGet plan RATE_LIMITS).isSome = true) :
    checkRateLimit userId plan now c db =
      .error (.valueError "Invalid window type: requests_per_minute") := by
  rcases ratelimits_plans plan h with h1 | h1 | h1 | h1 <;> subst h1 <;> rfl

/-- Witness for C8: user 3 on the `professional` plan. -/
theorem checkRateLimit_catalog_plan_valueError_w :
    (dictGet "professional" RATE_LIMITS).isSome = true ∧
    checkRateLimit 3 "professional" ⟨19000, 14, 30, 7, 250⟩ ⟨[], []⟩
        ⟨[], [], [], [], []⟩ =
      .error (.valueError "Invalid window type: requests_per_minute") :=
  ⟨by decide, checkRateLimit_catalog_plan_valueError 3 "professional"
    ⟨19000, 14, 30, 7, 250⟩ ⟨[], []⟩ ⟨[], [], [], [], []⟩ (by decide)⟩

/-- C1 (code bug): the spec's `check` walks the windows minute/hour/day
and returns an allow/deny decision, but the source's `check_rate_limit`
never reaches a decision for any cataloged plan: on the free plan the very
first loop iteration hands the limit-table key `requests_per_minute` to
`_get_window_start`, which raises `ValueError`. Evaluated here at the
failing input `user 1, plan "free"`, fresh limiter state. -/
theorem checkRateLimit_free_never_decides :
    checkRateLimit 1 "free" ⟨19000, 9, 0, 0, 0⟩ ⟨[], []⟩ ⟨[], [], [], [], []⟩ =
      .error (.valueError "Invalid window type: requests_per_minute") := by decide

/-- C2 (code bug): with user 1's minute window exhausted (count 10 cached
for the window starting at 09:00:00, and matching durable rows), a check
61 seconds after that window's start should observe the rolled-over window
as count 0 and return Allowed, but `check_rate_limit` again raises
`ValueError` on the `requests_per_minute` key before any rollover logic
can run. -/
theorem checkRateLimit_after_rollover_raises :
    checkRateLimit 1 "free" ⟨19000, 9, 1, 1, 0⟩
      ⟨[((1, "minute"), 10), ((1, "requests_per_minute"), 10)],
       [((1, "minute"), (DateTime.toMicros ⟨19000, 9, 0, 59, 0⟩)),
        ((1, "requests_per_minute"), (DateTime.toMicros ⟨19000, 9, 0, 59, 0⟩))]⟩
      ⟨[(1, "free")],
       [⟨1, "minute", ⟨19000, 9, 0, 0, 0⟩, 10⟩], [], [], []⟩ =
      .error (.valueError "Invalid window type: requests_per_minute") := by decide

/-- C3 (code bug): the cache is supposed never to exceed the durable
store, but a single `increment_usage(1, "requests_per_minute", 1)` — the
exact call the routers make — bumps the cache to 1 while
`_update_database_usage` swallows the internal `ValueError` and rolls
back, leaving the store empty; and even with a valid window type, an
increment issued after a window rollover adds to the stale cached count
(2) while the store's current-window row holds 1. -/
theorem incrementUsage_cache_exceeds_store :
    ((incrementUsage 1 "requests_per_minute" 1 ⟨19000, 9, 0, 0, 0⟩ ⟨[], []⟩
        ⟨[], [], [], [], []⟩).1.cache = [((1, "requests_per_minute"), 1)] ∧
      (incrementUsage 1 "requests_per_minute" 1 ⟨19000, 9, 0, 0, 0⟩ ⟨[], []⟩
        ⟨[], [], [], [], []⟩).2.rateLimits = []) ∧
    (let s1 := incrementUsage 1 "minute" 1 ⟨19000, 9, 0, 30, 0⟩ ⟨[], []⟩
        ⟨[], [], [], [], []⟩
     let s2 := incrementUsage 1 "minute" 1 ⟨19000, 9, 1, 10, 0⟩ s1.1 s1.2
     assocGet s2.1.cache (1, "minute") = 2 ∧
       ((s2.2.rateLimits.filter (fun r => r.userId == 1 && r.windowType == "minute"
           && r.windowStart == DateTime.truncToMinute ⟨19000, 9, 1, 10, 0⟩)).map
         (fun r => r.requestCount)).sum = 1) := by decide

/-- C6 (code bug): `track_usage` is supposed to propagate a failed ledger
write, but the source catches the exception, logs it, rolls back and
returns normally: with the INSERT failing, the call completes and the
`usage_stats` ledger is left unchanged — the event is silently lost. -/
theorem trackUsage_swallows_failed_write :
    trackUsage 1 "growth_advisory" 1 500 false ⟨[(1, "starter")], [], [], [], []⟩ =
      ⟨[(1, "starter")], [], [], [], []⟩ := by decide

/-- C4: a plan string absent from the catalogs is rejected with HTTP 400
"Invalid plan" by both `check_rate_limit` and `upgrade_plan` — no default
plan is substituted — and the failed upgrade returns the `users` table
unchanged. -/
theorem unknown_plan_rejected (userId : Nat) (plan : String) (now : DateTime)
    (c : RateLimiterCache) (db : Database)
    (h1 : dictGet plan RATE_LIMITS = none)
    (h2 : dictGet plan PRICING_TIERS = none) :
    checkRateLimit userId plan now c db =
      .error (.httpException 400 "Invalid plan") ∧
    upgradePlan userId plan db =
      (db, .error (.httpException 400 "Invalid plan")) := by
  constructor
  · simp [checkRateLimit, h1]
  · simp [upgradePlan, h2]

/-- Witness for C4 at the spec's `bogus_plan` example. -/
theorem unknown_plan_rejected_w :
    dictGet "bogus_plan" RATE_LIMITS = none ∧
    dictGet "bogus_plan" PRICING_TIERS = none ∧
    (checkRateLimit 1 "bogus_plan" ⟨19000, 9, 0, 0, 0⟩ ⟨[], []⟩
        ⟨[(1, "free")], [], [], [], []⟩ =
        .error (.httpException 400 "Invalid plan") ∧
      upgradePlan 1 "bogus_plan" ⟨[(1, "free")], [], [], [], []⟩ =
        (⟨[(1, "free")], [], [], [], []⟩,
         .error (.httpException 400 "Invalid plan"))) :=
  ⟨by decide, by decide,
   unknown_plan_rejected 1 "bogus_plan" ⟨19000, 9, 0, 0, 0⟩ ⟨[], []⟩
     ⟨[(1, "free")], [], [], [], []⟩ (by decide) (by decide)⟩

/-- C5: for a billing cycle belonging to the subject (and whose plan is a
catalog tier), `calculate_bill` returns a total equal to the plan's
monthly fee plus the sum of `unitCost * quantity` over the subject's
usage events with timestamp in `[cycleStart, cycleEnd]`, provided each
stored event's `total_cost` is `cost_per_call * calls_count` (which is how
`track_usage` writes them). -/
theorem calculateBill_invoice_arithmetic (userId cycleId : Nat) (db : Database)
    (cycle : BillingCycleRow) (tier : PricingTier)
    (hc : db.billingCycles.find?
      (fun cy => cy.id == cycleId && cy.userId == userId) = some cycle)
    (hp : dictGet cycle.plan PRICING_TIERS = some tier)
    (he : ∀ e ∈ db.usageStats, e.totalCost = e.costPerCall * e.callsCount) :
    ∃ bill, calculateBill userId cycleId db = .ok bill ∧
      bill.monthlyFee = tier.monthlyFee ∧
      bill.usageCost = ((cycleEvents userId cycle.cycleStart cycle.cycleEnd db).map
        (fun e => e.costPerCall * e.callsCount)).sum ∧
      bill.totalBill = tier.monthlyFee +
        ((cycleEvents userId cycle.cycleStart cycle.cycleEnd db).map
          (fun e => e.costPerCall * e.callsCount)).sum := by
  have hsum : ((cycleEvents userId cycle.cycleStart cycle.cycleEnd db).map
        (fun e => e.totalCost)).sum =
      ((cycleEvents userId cycle.cycleStart cycle.cycleEnd db).map
        (fun e => e.costPerCall * e.callsCount)).sum := by
    refine map_sum_congr _ _ _ (fun e hmem => ?_)
    exact he e (List.mem_filter.1 hmem).1
  refine ⟨⟨cycleId, userId, cycle.plan, tier.monthlyFee,
    ((cycleEvents userId cycle.cycleStart cycle.cycleEnd db).map
      (fun e => e.totalCost)).sum,
    ((cycleEvents userId cycle.cycleStart cycle.cycleEnd db).map
      (fun e => e.callsCount)).sum,
    tier.monthlyFee + ((cycleEvents userId cycle.cycleStart cycle.cycleEnd db).map
      (fun e => e.totalCost)).sum,
    cycle.cycleStart, cycle.cycleEnd⟩, ?_, rfl, hsum, ?_⟩
  · simp only [calculateBill, hc, hp]
  · rw [hsum]

/-- Witness for C5 at the spec's example: monthly fee 9.99 and two usage
events totaling 0.04 give a total of 10.03 (amounts in 0.001 dollars). -/
theorem calculateBill_invoice_arithmetic_w :
    ∃ bill, calculateBill 1 7
      ⟨[(1, "starter")], [],
       [⟨1, "growth_advisory", 1, 20, 20, 50⟩, ⟨1, "coder", 1, 20, 20, 60⟩],
       [⟨7, 1, 0, 100, 0, 0, "starter", "active"⟩], []⟩ = .ok bill ∧
      bill.monthlyFee = 9990 ∧ bill.usageCost = 40 ∧ bill.totalBill = 10030 := by
  obtain ⟨bill, hok, hfee, huse, htot⟩ :=
    calculateBill_invoice_arithmetic 1 7
      ⟨[(1, "starter")], [],
       [⟨1, "growth_advisory", 1, 20, 20, 50⟩, ⟨1, "coder", 1, 20, 20, 60⟩],
       [⟨7, 1, 0, 100, 0, 0, "starter", "active"⟩], []⟩
      ⟨7, 1, 0, 100, 0, 0, "starter", "active"⟩ ⟨1000, 10, 9990⟩
      (by decide) (by decide) (by decide)
  refine ⟨bill, hok, ?_, ?_, ?_⟩
  · rw [hfee]
  · rw [huse]; decide
  · rw [htot]; decide

/-- C9: `reset_user_limits` removes only the given subject's in-memory
cache counts and only that subject's `rate_limits` rows; the cache
timestamps, every other subject's cache counts and rows, and the whole of
`users`, `usage_stats`, `billing_cycles` and `payments` are unchanged. -/
theorem resetUserLimits_frame (userId : Nat) (c : RateLimiterCache)
    (db : Database) :
    (resetUserLimits userId c db).2.users = db.users ∧
    (resetUserLimits userId c db).2.usageStats = db.usageStats ∧
    (resetUserLimits userId c db).2.billingCycles = db.billingCycles ∧
    (resetUserLimits userId c db).2.payments = db.payments ∧
    (resetUserLimits userId c db).1.cacheTimestamps = c.cacheTimestamps ∧
    (∀ p, p ∈ (resetUserLimits userId c db).1.cache ↔
      p ∈ c.cache ∧ p.1.1 ≠ userId) ∧
    (∀ r, r ∈ (resetUserLimits userId c db).2.rateLimits ↔
      r ∈ db.rateLimits ∧ r.userId ≠ userId) := by
  refine ⟨rfl, rfl, rfl, rfl, rfl, ?_, ?_⟩
  · intro p
    simp [resetUserLimits, List.mem_filter]
  · intro r
    simp [resetUserLimits, List.mem_filter]

/-- Witness for C9 on a two-subject state. -/
theorem resetUserLimits_frame_w :
    (resetUserLimits 1
      ⟨[((1, "minute"), 4), ((2, "minute"), 6)],
       [((1, "minute"), 100)]⟩
      ⟨[(1, "free"), (2, "starter")],
       [⟨1, "minute", ⟨19000, 9, 0, 0, 0⟩, 4⟩, ⟨2, "minute", ⟨19000, 9, 0, 0, 0⟩, 6⟩],
       [⟨2, "coder", 1, 35, 35, 50⟩],
       [⟨7, 2, 0, 100, 0, 0, "starter", "active"⟩],
       [⟨3, 2, 9990, "credit_card", "completed"⟩]⟩) =
    (⟨[((2, "minute"), 6)], [((1, "minute"), 100)]⟩,
     ⟨[(1, "free"), (2, "starter")],
      [⟨2, "minute", ⟨19000, 9, 0, 0, 0⟩, 6⟩],
      [⟨2, "coder", 1, 35, 35, 50⟩],
      [⟨7, 2, 0, 100, 0, 0, "starter", "active"⟩],
      [⟨3, 2, 9990, "credit_card", "completed"⟩]⟩) := by decide

/-- C10: `track_usage` accepts any capability name: for a module absent
from `MODULE_PRICING` it records the event at the plan's `price_per_call`
plus the default 0.01, and for a listed module at the plan's
`price_per_call` plus that module's listed price (amounts in 0.001
dollars, so the default is 10). -/
theorem trackUsage_module_pricing (userId : Nat) (moduleName : String)
    (calls : Nat) (now : Nat) (db : Database) (plan : String) (tier : PricingTier)
    (hu : (db.users.find? (fun u => u.1 == userId)).map (fun u => u.2) = some plan)
    (hp : dictGet plan PRICING_TIERS = some tier) :
    trackUsage userId moduleName calls now true db =
      { db with usageStats := db.usageStats ++
          [⟨userId, moduleName, calls,
            tier.pricePerCall + dictGetD moduleName MODULE_PRICING 10,
            (tier.pricePerCall + dictGetD moduleName MODULE_PRICING 10) * calls,
            now⟩] } ∧
    (dictGet moduleName MODULE_PRICING = none →
      dictGetD moduleName MODULE_PRICING 10 = 10) ∧
    (∀ price, dictGet moduleName MODULE_PRICING = some price →
      dictGetD moduleName MODULE_PRICING 10 = price) := by
  refine ⟨?_, ?_, ?_⟩
  · simp [trackUsage, hu, hp]
  · intro h
    simp [dictGetD, h]
  · intro price h
    simp [dictGetD, h]

/-- Witness for C10: an unlisted module on the starter plan is billed at
0.01 + 0.01 per call. -/
theorem trackUsage_module_pricing_w :
    trackUsage 1 "mystery_module" 2 500 true ⟨[(1, "starter")], [], [], [], []⟩ =
      ⟨[(1, "starter")], [], [⟨1, "mystery_module", 2, 20, 40, 500⟩], [], []⟩ ∧
    dictGet "mystery_module" MODULE_PRICING = none := by
  obtain ⟨h1, h2, h3⟩ :=
    trackUsage_module_pricing 1 "mystery_module" 2 500
      ⟨[(1, "starter")], [], [], [], []⟩ "starter" ⟨1000, 10, 9990⟩
      (by decide) (by decide)
  exact ⟨by rw [h1]; decide, by decide⟩

end MornGPT
